import Mathlib

/-!
Shallow embedding of the grmchatbot backend (src/server.js): the lead intake
handler (POST /api/submit-lead), the lead listing handler (GET /api/leads),
the chat relay (POST /api/chat) and the stats aggregator (GET /api/stats).
Request bodies are modelled as records of optional strings; JavaScript
truthiness of a string field is modelled by `truthy`; the on-disk lead
collection is modelled as a `List Lead` snapshot; outbound HTTP calls are
modelled by outcome parameters plus an explicit trace of which calls were
made.
-/

namespace Grm

/-- JavaScript truthiness of an optional string value: `undefined`/absent and
the empty string are falsy, every other string is truthy.  Mirrors the
`!name` style checks in server.js. -/
def truthy : Option String → Bool
  | none => false
  | some s => s ≠ ""

/-! ### Decimal rendering of `Nat` (JS `Date.now().toString()`)

`server.js` line 54 sets `id: Date.now().toString()`, the decimal rendering
of the millisecond timestamp.  Lean renders a `Nat` in decimal with
`Nat.repr`, which is implemented with fuel (`Nat.toDigitsCore`).  We relate
it to a structurally recursive digit list to obtain that the rendering is
never empty and is injective. -/

/-- Decimal digit characters of `n`, most significant first, by structural
division by 10. -/
def natDigits (n : Nat) : List Char :=
  if h : n < 10 then [Nat.digitChar n]
  else natDigits (n / 10) ++ [Nat.digitChar (n % 10)]
  termination_by n
  decreasing_by
    exact Nat.div_lt_self (by omega) (by omega)

/-! ### Lead intake (POST /api/submit-lead, server.js lines 32-97) -/

/-- The untyped request body destructured at server.js line 34.  Every field
may be absent (`none`); `ip` models `req.ip`, which Express may leave
undefined. -/
structure SubmitRequest where
  name : Option String
  phone : Option String
  email : Option String
  company : Option String
  message : Option String
  requirement : Option String
  type : Option String
  ip : Option String
  deriving DecidableEq

/-- A stored lead record, the object built at server.js lines 53-64. -/
structure Lead where
  id : String
  name : String
  phone : String
  email : String
  company : String
  message : String
  requirement : String
  type : String
  submittedAt : String
  ip : String
  deriving DecidableEq

/-- The JSON responses of the submit-lead handler: a 400 with
`success:false` and a message, or a 200 with `success:true`, a message and
the `leadId`. -/
inductive SubmitResponse where
  | badRequest (message : String)
  | ok (message : String) (leadId : String)
  deriving DecidableEq

/-- JS `String.prototype.trim`: remove whitespace from both ends of the
string.  Modelled on the character list so that it computes by structural
recursion. -/
def trim (s : String) : String :=
  ⟨((s.data.dropWhile Char.isWhitespace).reverse.dropWhile Char.isWhitespace).reverse⟩

/-- JS `String.prototype.toLowerCase` (restricted to the simple per-character
case mapping): lower-case every character. -/
def toLowerCase (s : String) : String :=
  ⟨s.data.map Char.toLower⟩

/-- Character class `[^\s@]` of the email regex at server.js line 45: any
character that is neither whitespace nor `@`. -/
def emailAtom (c : Char) : Bool :=
  !c.isWhitespace && c != '@'

/-- Test of the anchored regex `^[^\s@]+@[^\s@]+\.[^\s@]+$` (server.js line
45-46).  Since `[^\s@]` excludes `@`, the `@` of the pattern can only match
the first `@` of the string, so the string matches iff it splits as
`local ++ "@" ++ rest` with `local` a nonempty run of `[^\s@]` characters,
every character of `rest` in `[^\s@]`, and a `.` occurring in `rest` at
some position other than the first and the last (the `.` itself is a
`[^\s@]` character, and both runs around it must be nonempty). -/
def emailRegexTest (s : String) : Bool :=
  match (s.data.span emailAtom : List Char × List Char) with
  | (pre, '@' :: rest) =>
      pre ≠ [] && rest.all emailAtom && ((rest.drop 1).dropLast.contains '.')
  | _ => false

/-- The `leadData` object literal at server.js lines 53-64: `now` is the
value of `Date.now()` (milliseconds since epoch) and `nowISO` the value of
`new Date().toISOString()`. -/
def leadData (req : SubmitRequest) (now : Nat) (nowISO : String) : Lead :=
  { id := Nat.repr now
    name := trim (req.name.getD "")
    phone := trim (req.phone.getD "")
    email := toLowerCase (trim (req.email.getD ""))
    company := trim (req.company.getD "")
    message := if truthy req.message then trim (req.message.getD "")
               else "No additional message provided"
    requirement := if truthy req.requirement then trim (req.requirement.getD "")
                   else "General inquiry"
    type := if truthy req.type then req.type.getD "" else "contact_form"
    submittedAt := nowISO
    ip := if truthy req.ip then req.ip.getD "" else "unknown" }

/-- The submit-lead handler (server.js lines 32-97) acting on the parsed
store snapshot: `store` is the lead list read back from `data/leads.json`
(or `[]` when the file is absent/unparsable, lines 72-78).  Returns the
HTTP response together with the lead list written back.  Validation
(lines 37-51) happens before any store access, so on a 400 the store is
returned untouched. -/
def submitLead (req : SubmitRequest) (now : Nat) (nowISO : String)
    (store : List Lead) : SubmitResponse × List Lead :=
  if ¬ (truthy req.name && truthy req.phone && truthy req.email && truthy req.company) then
    (.badRequest "Missing required fields: name, phone, email, and company are required", store)
  else if ¬ emailRegexTest (req.email.getD "") then
    (.badRequest "Invalid email format", store)
  else
    let lead := leadData req now nowISO
    (.ok "Lead submitted successfully" lead.id, store ++ [lead])

/-- A sequence of submit-lead requests applied in order, each with its own
`Date.now()` and ISO timestamp, starting from a store snapshot. -/
def runSubmits (steps : List (SubmitRequest × Nat × String)) (store : List Lead) : List Lead :=
  steps.foldl (fun st step => (submitLead step.1 step.2.1 step.2.2 st).2) store

/-! ### Chat relay (POST /api/chat, server.js lines 112-197) -/

/-- The `AZURE_CONFIG` object (server.js lines 12-19): each entry comes from
an environment variable and may be undefined. -/
structure AzureConfig where
  endpoint : Option String
  apiKey : Option String
  deploymentName : Option String
  searchEndpoint : Option String
  searchKey : Option String
  searchIndex : Option String

/-- Outcome of the outbound Azure Cognitive Search call (server.js lines
129-148): `err` covers network errors, non-2xx statuses and timeouts (all
reach the catch at line 149); `results` carries the `content` field of each
returned document, `results []` also covering a response with no `value`
array. -/
inductive SearchOutcome where
  | err
  | results (contents : List String)

/-- Outcome of the outbound Azure OpenAI completion call (server.js lines
170-188): `err` covers network errors, non-2xx statuses and a malformed
response shape; `reply` carries `choices[0].message.content`. -/
inductive CompletionOutcome where
  | err
  | reply (text : String)

/-- The JSON responses of the chat handler: 400 with an error message, 200
with the reply, or 500 with the fixed apology. -/
inductive ChatResponse where
  | badRequest (error : String)
  | ok (response : String)
  | serverError (error : String)
  deriving DecidableEq

/-- Which outbound calls a chat request performed: whether the search call
was issued, and the system prompt the completion call was issued with
(`none` when the completion provider was never called). -/
structure ChatTrace where
  searchCalled : Bool
  completionPrompt : Option String
  deriving DecidableEq

/-- server.js line 194: the fixed user-facing apology for upstream failure. -/
def chatApology : String :=
  "I apologize, but I\x27m having trouble connecting to our AI service. Please try again or contact our support team directly."

/-- The part of the system-prompt template literal (server.js lines 155-164)
before the conditional context interpolation. -/
def systemMessagePre : String :=
  "You are a helpful AI assistant for GradientM, a leading technology consulting firm specializing in digital transformation. \n        \nGradientM Services:\n        - Cloud & Infrastructure (AWS, Azure, GCP)\n        - Digital Transformation\n        - Data Analytics & AI\n        - Cybersecurity\n        - Software Development\n        - IT Consulting\n        \n        "

/-- The part of the system-prompt template literal (server.js lines 165-167)
after the conditional context interpolation. -/
def systemMessagePost : String :=
  "\n        \n        Provide helpful, professional responses about GradientM\x27s services. If asked about services not offered, politely redirect to available services."

/-- The system prompt (server.js lines 155-167): the static persona and
service catalog, with an `Additional Context` section interpolated exactly
when `searchResults` is non-empty (JS string truthiness). -/
def systemMessage (searchResults : String) : String :=
  systemMessagePre
    ++ (if searchResults ≠ "" then "Additional Context: " ++ searchResults else "")
    ++ systemMessagePost

/-- server.js line 127: the search call is attempted only when both the
search endpoint and the search key are configured (truthy). -/
def searchConfigured (cfg : AzureConfig) : Bool :=
  truthy cfg.searchEndpoint && truthy cfg.searchKey

/-- The `searchResults` string after the search block (server.js lines
126-152): empty when the provider is unconfigured, errored, returned no
`value`, or returned zero documents; otherwise the document contents joined
with blank lines. -/
def searchResultsOf (cfg : AzureConfig) (search : SearchOutcome) : String :=
  if searchConfigured cfg then
    match search with
    | .err => ""
    | .results contents =>
        if contents.length > 0 then String.intercalate "\n\n" contents else ""
  else ""

/-- The chat handler (server.js lines 112-197).  `message` is the request
body field; `search` and `completion` are the outcomes the two providers
would give if called.  Returns the HTTP response and the trace of outbound
calls: the validation failure and the `hi` shortcut return before any
outbound call. -/
def chat (cfg : AzureConfig) (message : Option String) (search : SearchOutcome)
    (completion : CompletionOutcome) : ChatResponse × ChatTrace :=
  if ¬ truthy message then
    (.badRequest "Message is required", ⟨false, none⟩)
  else if trim (toLowerCase (message.getD "")) = "hi" then
    (.ok "gpt-40", ⟨false, none⟩)
  else
    let sys := systemMessage (searchResultsOf cfg search)
    match completion with
    | .err => (.serverError chatApology, ⟨searchConfigured cfg, some sys⟩)
    | .reply text => (.ok text, ⟨searchConfigured cfg, some sys⟩)

/-! ### Lead listing and stats (GET /api/leads lines 100-109, GET /api/stats
lines 200-224) -/

/-- The JS object accumulated by the `reduce` at server.js lines 213-217,
as an association list in key-insertion order. -/
def bump : List (String × Nat) → String → List (String × Nat)
  | [], key => [(key, 1)]
  | (k, v) :: rest, key =>
      if k = key then (k, v + 1) :: rest else (k, v) :: bump rest key

/-- `lead.requirement || 'General Inquiry'` (server.js line 214): a missing
requirement field of a stored record is modelled as the empty string, which
is falsy exactly like JS `undefined` here. -/
def serviceOf (l : Lead) : String :=
  if l.requirement ≠ "" then l.requirement else "General Inquiry"

/-- The `serviceRequests` object (server.js lines 213-217). -/
def serviceRequests (leads : List Lead) : List (String × Nat) :=
  leads.foldl (fun acc l => bump acc (serviceOf l)) []

/-- Reading a count out of the accumulated object: `acc[key] || 0`. -/
def lookupCount (acc : List (String × Nat)) (key : String) : Nat :=
  ((acc.find? (fun p => p.1 == key)).map Prod.snd).getD 0

/-- The stats JSON object (server.js lines 206-218). -/
structure Stats where
  totalLeads : Nat
  todayLeads : Nat
  serviceRequests : List (String × Nat)
  deriving DecidableEq

/-- The stats computation over a parsed lead list (server.js lines 206-218).
`toDateStr` models `x => new Date(x).toDateString()` and `today` models
`new Date().toDateString()`. -/
def computeStats (leads : List Lead) (toDateStr : String → String) (today : String) : Stats :=
  { totalLeads := leads.length
    todayLeads := (leads.filter (fun l => toDateStr l.submittedAt == today)).length
    serviceRequests := serviceRequests leads }

/-- The outcome of reading and parsing `data/leads.json`: `file` is the file
content (`none` when absent or unreadable), `parse` models `JSON.parse`
followed by interpretation as a lead array (`none` on a parse failure).  The
result is `none` exactly when the try block of the read path throws. -/
def readLeads (file : Option String) (parse : String → Option (List Lead)) :
    Option (List Lead) :=
  file.bind parse

/-- GET /api/leads (server.js lines 100-109): the parsed lead list, or `[]`
when reading or parsing throws.  Total: every outcome is a 200 response. -/
def leadsHandler (file : Option String) (parse : String → Option (List Lead)) : List Lead :=
  (readLeads file parse).getD []

/-- The zero-valued stats object of the catch branch (server.js line 222). -/
def zeroStats : Stats :=
  { totalLeads := 0, todayLeads := 0, serviceRequests := [] }

/-- GET /api/stats (server.js lines 200-224): computed stats, or the
zero-valued object when reading or parsing throws.  Total: every outcome is
a 200 response. -/
def statsHandler (file : Option String) (parse : String → Option (List Lead))
    (toDateStr : String → String) (today : String) : Stats :=
  match readLeads file parse with
  | none => zeroStats
  | some leads => computeStats leads toDateStr today

/-! ### Auxiliary predicates and concrete example inputs -/

/-- A 400-equivalent response of the submit-lead handler. -/
def isClientError : SubmitResponse → Bool
  | .badRequest _ => true
  | _ => false

/-- Whether `needle` occurs as a contiguous substring of the character
list. -/
def hasSubstr (needle : List Char) : List Char → Bool
  | [] => needle.isEmpty
  | c :: rest => needle.isPrefixOf (c :: rest) || hasSubstr needle rest

/-- The valid submission of the spec scenario:
`{name:"A", phone:"123", email:"a@b.com", company:"X"}` with no optional
fields. -/
def exampleReq : SubmitRequest :=
  ⟨some "A", some "123", some "a@b.com", some "X", none, none, none, none⟩

/-- A submission whose name is whitespace-only: empty after trimming, but
truthy for the JS required-field check. -/
def wsNameReq : SubmitRequest :=
  ⟨some " ", some "1", some "a@b.com", some "X", none, none, none, none⟩

/-- A valid submission whose optional fields are present but empty, with a
`type` carrying surrounding whitespace. -/
def emptyOptReq : SubmitRequest :=
  ⟨some "A", some "123", some "a@b.com", some "X", some "", some "", some " web ", none⟩

/-- A lead whose fields are all empty except the requirement: used for the
stats scenario, where only `requirement` matters. -/
def reqLead (requirement : String) : Lead :=
  ⟨"", "", "", "", "", "", requirement, "", "", ""⟩

/-- The stats scenario of the spec: four leads with requirement values
`["Cloud", "Cloud", "", "AI"]`. -/
def statsExampleLeads : List Lead :=
  [reqLead "Cloud", reqLead "Cloud", reqLead "", reqLead "AI"]

/-- A configuration with every entry set, so the search provider is
configured. -/
def fullConfig : AzureConfig :=
  ⟨some "e", some "k", some "d", some "se", some "sk", some "si"⟩

/-- A configuration with no search endpoint or key: the search provider is
unconfigured. -/
def noSearchConfig : AzureConfig :=
  ⟨some "e", some "k", some "d", none, none, none⟩

/-! ## Theorems

### Decimal rendering: `Nat.repr` is nonempty and injective -/

theorem natDigits_lt (n : Nat) (h : n < 10) : natDigits n = [Nat.digitChar n] := by
  rw [natDigits]
  simp [h]

theorem natDigits_ge (n : Nat) (h : ¬ n < 10) :
    natDigits n = natDigits (n / 10) ++ [Nat.digitChar (n % 10)] := by
  rw [natDigits]
  simp [h]

theorem natDigits_ne_nil (n : Nat) : natDigits n ≠ [] := by
  by_cases h : n < 10
  · rw [natDigits_lt n h]; simp
  · rw [natDigits_ge n h]; simp

/-- With enough fuel, `Nat.toDigitsCore` computes `natDigits` onto the
accumulator. -/
theorem toDigitsCore_eq_natDigits :
    ∀ (fuel n : Nat) (acc : List Char), n < fuel →
      Nat.toDigitsCore 10 fuel n acc = natDigits n ++ acc := by
  intro fuel
  induction fuel with
  | zero => intro n acc h; omega
  | succ f ih =>
    intro n acc h
    by_cases h10 : n < 10
    · have hdiv : n / 10 = 0 := Nat.div_eq_of_lt h10
      have hmod : n % 10 = n := Nat.mod_eq_of_lt h10
      simp [Nat.toDigitsCore, hdiv, hmod, natDigits_lt n h10]
    · have hdiv : ¬ n / 10 = 0 := by
        have : 1 ≤ n / 10 := (Nat.le_div_iff_mul_le (by omega)).mpr (by omega)
        omega
      have hlt : n / 10 < f := by
        have h1 : n / 10 < n := Nat.div_lt_self (by omega) (by omega)
        omega
      simp only [Nat.toDigitsCore, hdiv, if_false]
      rw [ih (n / 10) (Nat.digitChar (n % 10) :: acc) hlt,
        natDigits_ge n h10, List.append_assoc]
      rfl

theorem repr_eq_natDigits (n : Nat) : Nat.repr n = (natDigits n).asString := by
  unfold Nat.repr Nat.toDigits
  rw [toDigitsCore_eq_natDigits (n + 1) n [] (Nat.lt_succ_self n), List.append_nil]

theorem repr_ne_empty (n : Nat) : Nat.repr n ≠ "" := by
  rw [repr_eq_natDigits]
  intro h
  exact natDigits_ne_nil n (by simpa [List.asString, String.ext_iff] using h)

theorem digitChar_inj_of_lt (a b : Nat) (ha : a < 10) (hb : b < 10)
    (h : Nat.digitChar a = Nat.digitChar b) : a = b := by
  have hfin : ∀ x : Fin 10, ∀ y : Fin 10,
      Nat.digitChar x.val = Nat.digitChar y.val → x = y := by decide
  have := hfin ⟨a, ha⟩ ⟨b, hb⟩ h
  simpa using congrArg Fin.val this

theorem natDigits_length_pos (n : Nat) : 0 < (natDigits n).length := by
  cases hn : natDigits n with
  | nil => exact absurd hn (natDigits_ne_nil n)
  | cons a l => simp

theorem natDigits_inj : ∀ m n : Nat, natDigits m = natDigits n → m = n := by
  intro m
  induction m using Nat.strong_induction_on with
  | _ m ih =>
    intro n h
    by_cases hm : m < 10 <;> by_cases hn : n < 10
    · rw [natDigits_lt m hm, natDigits_lt n hn] at h
      exact digitChar_inj_of_lt m n hm hn (by simpa using h)
    · rw [natDigits_lt m hm, natDigits_ge n hn] at h
      have hlen := congrArg List.length h
      rw [List.length_append, List.length_singleton, List.length_singleton] at hlen
      have := natDigits_length_pos (n / 10)
      omega
    · rw [natDigits_ge m hm, natDigits_lt n hn] at h
      have hlen := congrArg List.length h
      rw [List.length_append, List.length_singleton, List.length_singleton] at hlen
      have := natDigits_length_pos (m / 10)
      omega
    · rw [natDigits_ge m hm, natDigits_ge n hn] at h
      have hparts := List.append_inj' h (by simp)
      have hdiv : m / 10 = n / 10 :=
        ih (m / 10) (Nat.div_lt_self (by omega) (by omega)) (n / 10) hparts.1
      have hmod : m % 10 = n % 10 := by
        have := hparts.2
        simp at this
        exact digitChar_inj_of_lt _ _ (Nat.mod_lt m (by omega)) (Nat.mod_lt n (by omega)) this
      omega

theorem repr_inj {m n : Nat} (h : Nat.repr m = Nat.repr n) : m = n := by
  rw [repr_eq_natDigits, repr_eq_natDigits] at h
  exact natDigits_inj m n (by simpa [List.asString, String.ext_iff] using h)

/-! ### Claim theorems -/

/-- C1: for every submission with name, phone, email and company present
and non-empty and with the email matching the regex, the submit-lead
handler appends exactly one new lead to the store (prior leads unchanged
and in order) and returns a success acknowledgment whose `leadId` is
non-empty and equals the id of the newly stored lead. -/
theorem submitLead_valid_appends_one (req : SubmitRequest) (now : Nat) (nowISO : String)
    (store : List Lead)
    (hn : truthy req.name = true) (hp : truthy req.phone = true)
    (he : truthy req.email = true) (hc : truthy req.company = true)
    (hmail : emailRegexTest (req.email.getD "") = true) :
    submitLead req now nowISO store
      = (.ok "Lead submitted successfully" (leadData req now nowISO).id,
          store ++ [leadData req now nowISO])
    ∧ (leadData req now nowISO).id ≠ "" := by
  constructor
  · unfold submitLead
    simp [hn, hp, he, hc, hmail]
  · exact repr_ne_empty now

theorem submitLead_valid_appends_one_witness :
    submitLead exampleReq 5 "t" []
      = (.ok "Lead submitted successfully" (leadData exampleReq 5 "t").id,
          [] ++ [leadData exampleReq 5 "t"])
    ∧ (leadData exampleReq 5 "t").id ≠ "" :=
  submitLead_valid_appends_one exampleReq 5 "t" []
    (by decide) (by decide) (by decide) (by decide) (by decide)

/-- C2 counterexample: the submission with a whitespace-only name (empty
after trimming, so inside the scope of the claim) is accepted by the
handler with a success response, and a record is written: the claim as
stated is false on the code.  The required-field check at server.js line 37
tests JS truthiness of the raw values, not of the trimmed values. -/
theorem submitLead_ws_name_accepted :
    trim " " = ""
    ∧ (submitLead wsNameReq 0 "t" []).1 = .ok "Lead submitted successfully" "0"
    ∧ (submitLead wsNameReq 0 "t" []).2 ≠ [] := by
  refine ⟨by decide, by decide, by decide⟩

/-- C2 (amended): for every submission in which any of name, phone, email
or company is absent or is the empty string (JS-falsy), submit-lead fails
with a 400 response carrying an explanatory message and the store is
unchanged.  (Whitespace-only values are truthy and pass this check: a
whitespace-only email is still rejected by the email-format check, while
whitespace-only name/phone/company are accepted and stored trimmed to the
empty string.) -/
theorem submitLead_falsy_field_rejects (req : SubmitRequest) (now : Nat) (nowISO : String)
    (store : List Lead)
    (h : truthy req.name = false ∨ truthy req.phone = false
        ∨ truthy req.email = false ∨ truthy req.company = false) :
    submitLead req now nowISO store
      = (.badRequest "Missing required fields: name, phone, email, and company are required",
          store) := by
  unfold submitLead
  rcases h with h | h | h | h <;> simp [h]

theorem submitLead_falsy_field_rejects_witness :
    submitLead ⟨none, some "1", some "a@b.com", some "X", none, none, none, none⟩ 0 "t" []
      = (.badRequest "Missing required fields: name, phone, email, and company are required",
          []) :=
  submitLead_falsy_field_rejects _ 0 "t" [] (Or.inl (by decide))

/-- C3: for every submission whose four required fields are present but
whose email does not match the regex, submit-lead returns a 400 response
and the store is unchanged. -/
theorem submitLead_bad_email_rejects (req : SubmitRequest) (now : Nat) (nowISO : String)
    (store : List Lead)
    (hpresent : req.name ≠ none ∧ req.phone ≠ none ∧ req.email ≠ none ∧ req.company ≠ none)
    (hmail : emailRegexTest (req.email.getD "") = false) :
    isClientError (submitLead req now nowISO store).1 = true
    ∧ (submitLead req now nowISO store).2 = store := by
  unfold submitLead
  split
  · exact ⟨rfl, rfl⟩
  · split
    · exact ⟨rfl, rfl⟩
    · rename_i hcond
      simp [hmail] at hcond

/-- Bumping one key changes exactly that key's count, by one. -/
theorem lookupCount_bump (acc : List (String × Nat)) (k key : String) :
    lookupCount (bump acc k) key
      = lookupCount acc key + (if k = key then 1 else 0) := by
  induction acc with
  | nil =>
    by_cases h : k = key
    · subst h; simp [bump, lookupCount, List.find?]
    · have hb : (k == key) = false := by simp [h]
      simp [bump, lookupCount, List.find?, hb, h]
  | cons a rest ih =>
    obtain ⟨ak, av⟩ := a
    by_cases hak : ak = k
    · subst hak
      by_cases hkey : ak = key
      · subst hkey; simp [bump, lookupCount, List.find?]
      · have hb : (ak == key) = false := by simp [hkey]
        simp [bump, lookupCount, List.find?, hb, hkey]
    · simp only [bump, if_neg hak]
      by_cases hkey : ak = key
      · subst hkey
        have hk : k ≠ ak := fun h => hak h.symm
        simp [lookupCount, List.find?, hk]
      · have hb : (ak == key) = false := by simp [hkey]
        simp only [lookupCount, List.find?, hb]
        exact ih

/-- The fold accumulating the `serviceRequests` object counts occurrences
on top of any starting accumulator. -/
theorem lookupCount_fold (leads : List Lead) (acc : List (String × Nat)) (key : String) :
    lookupCount (leads.foldl (fun a l => bump a (serviceOf l)) acc) key
      = lookupCount acc key + (leads.filter (fun l => serviceOf l == key)).length := by
  induction leads generalizing acc with
  | nil => simp
  | cons l rest ih =>
    simp only [List.foldl_cons, List.filter_cons]
    rw [ih]
    rw [lookupCount_bump]
    by_cases h : serviceOf l = key
    · simp [h]
      omega
    · simp [h]

theorem submitLead_bad_email_rejects_witness :
    isClientError (submitLead ⟨some "A", some "1", some "not-an-email", some "X",
        none, none, none, none⟩ 0 "t" []).1 = true
    ∧ (submitLead ⟨some "A", some "1", some "not-an-email", some "X",
        none, none, none, none⟩ 0 "t" []).2 = [] :=
  submitLead_bad_email_rejects _ 0 "t" []
    ⟨by decide, by decide, by decide, by decide⟩ (by decide)

/-- C4: the stats computation returns `totalLeads` equal to the number of
leads read, and `serviceRequests` mapping each requirement value to the
number of leads carrying it, with an empty/missing requirement bucketed
under `General Inquiry` (via `serviceOf`); on the leads with requirement
values `["Cloud", "Cloud", "", "AI"]` it yields
`{"Cloud": 2, "General Inquiry": 1, "AI": 1}` and `totalLeads = 4`. -/
theorem computeStats_counts (leads : List Lead) (toDateStr : String → String)
    (today : String) :
    (computeStats leads toDateStr today).totalLeads = leads.length
    ∧ (∀ key, lookupCount (computeStats leads toDateStr today).serviceRequests key
        = (leads.filter (fun l => serviceOf l == key)).length)
    ∧ (computeStats statsExampleLeads toDateStr today).serviceRequests
        = [("Cloud", 2), ("General Inquiry", 1), ("AI", 1)]
    ∧ (computeStats statsExampleLeads toDateStr today).totalLeads = 4 := by
  refine ⟨rfl, fun key => ?_, rfl, rfl⟩
  simpa [computeStats, serviceRequests, lookupCount, List.find?]
    using lookupCount_fold leads [] key

/-- C5: a chat message whose lower-cased, trimmed form is exactly `hi`
returns the literal reply `gpt-40`, with no outbound call to the search or
completion provider, whatever the configuration and whatever the providers
would have answered. -/
theorem chat_hi_returns_gpt40 (cfg : AzureConfig) (m : String)
    (search : SearchOutcome) (completion : CompletionOutcome)
    (hhi : trim (toLowerCase m) = "hi") :
    chat cfg (some m) search completion = (.ok "gpt-40", ⟨false, none⟩) := by
  have hme : m ≠ "" := by
    intro h
    subst h
    simp [toLowerCase, trim] at hhi
  have ht : truthy (some m) = true := by simp [truthy, hme]
  simp [chat, ht, hhi]

theorem chat_hi_returns_gpt40_witness :
    chat fullConfig (some " Hi ") .err .err = (.ok "gpt-40", ⟨false, none⟩) :=
  chat_hi_returns_gpt40 fullConfig " Hi " .err .err (by decide)

/-- C6: when reading or parsing the lead storage fails (file absent,
unreadable or unparsable, i.e. `readLeads` yields `none`), the list-leads
handler returns `[]` and the stats handler returns the zero-valued stats
object; both handlers are total functions into plain response values, so
the failure is never propagated to the caller. -/
theorem readFailure_fail_open (file : Option String) (parse : String → Option (List Lead))
    (toDateStr : String → String) (today : String)
    (h : readLeads file parse = none) :
    leadsHandler file parse = []
    ∧ statsHandler file parse toDateStr today
        = { totalLeads := 0, todayLeads := 0, serviceRequests := [] } := by
  constructor
  · simp [leadsHandler, h]
  · simp [statsHandler, h, zeroStats]

theorem readFailure_fail_open_witness :
    leadsHandler none (fun _ => none) = []
    ∧ statsHandler none (fun _ => none) (fun s => s) ""
        = { totalLeads := 0, todayLeads := 0, serviceRequests := [] } :=
  readFailure_fail_open none (fun _ => none) (fun s => s) "" rfl

set_option maxRecDepth 40000 in
/-- C7: for a chat request that is not the `hi` shortcut, a failed search
call and a search call returning zero results both leave `searchResults`
empty and produce the very same outcome; the flow still reaches the
completion provider, with the system prompt that contains no
`Additional Context` section; when the completion succeeds the caller gets
its reply (the search failure is never surfaced as a request failure); and
an unconfigured search provider produces the same outcome as an erroring
one. -/
theorem chat_search_failure_degrades (cfg : AzureConfig) (m : String)
    (completion : CompletionOutcome)
    (hm : m ≠ "") (hhi : trim (toLowerCase m) ≠ "hi") :
    searchResultsOf cfg .err = ""
    ∧ searchResultsOf cfg (.results []) = ""
    ∧ chat cfg (some m) .err completion = chat cfg (some m) (.results []) completion
    ∧ (chat cfg (some m) .err completion).2.completionPrompt = some (systemMessage "")
    ∧ hasSubstr "Additional Context".data (systemMessage "").data = false
    ∧ (∀ text, completion = .reply text → (chat cfg (some m) .err completion).1 = .ok text)
    ∧ (searchConfigured cfg = false →
        ∀ search, chat cfg (some m) search completion = chat cfg (some m) .err completion) := by
  have ht : truthy (some m) = true := by simp [truthy, hm]
  have hErr : searchResultsOf cfg .err = "" := by
    by_cases h : searchConfigured cfg = true <;> simp [searchResultsOf, h]
  have hZero : searchResultsOf cfg (.results []) = "" := by
    by_cases h : searchConfigured cfg = true <;> simp [searchResultsOf, h]
  refine ⟨hErr, hZero, ?_, ?_, ?_, ?_, ?_⟩
  · cases completion <;> simp [chat, ht, hhi, hErr, hZero]
  · cases completion <;> simp [chat, ht, hhi, hErr]
  · decide
  · intro text hc
    subst hc
    simp [chat, ht, hhi]
  · intro hcfg search
    have hs : searchResultsOf cfg search = "" := by simp [searchResultsOf, hcfg]
    cases completion <;> simp [chat, ht, hhi, hs, hErr]

theorem chat_search_failure_degrades_witness :
    searchResultsOf fullConfig .err = ""
    ∧ searchResultsOf fullConfig (.results []) = ""
    ∧ chat fullConfig (some "hello") .err (.reply "ok")
        = chat fullConfig (some "hello") (.results []) (.reply "ok")
    ∧ (chat fullConfig (some "hello") .err (.reply "ok")).2.completionPrompt
        = some (systemMessage "")
    ∧ hasSubstr "Additional Context".data (systemMessage "").data = false
    ∧ (∀ text, (CompletionOutcome.reply "ok") = .reply text →
        (chat fullConfig (some "hello") .err (.reply "ok")).1 = .ok text)
    ∧ (searchConfigured fullConfig = false →
        ∀ search, chat fullConfig (some "hello") search (.reply "ok")
          = chat fullConfig (some "hello") .err (.reply "ok")) :=
  chat_search_failure_degrades fullConfig "hello" (.reply "ok") (by decide) (by decide)

/-- C8 counterexample: two submissions both carrying `Date.now() = 5` (two
requests inside the same millisecond) both succeed and both store the id
`"5"`: after this sequence of successful submit-lead operations the store
holds two leads with the same id, so id uniqueness fails as stated. -/
theorem runSubmits_same_ms_duplicate_ids :
    (submitLead exampleReq 5 "t" []).1 = .ok "Lead submitted successfully" "5"
    ∧ (submitLead exampleReq 5 "t" (submitLead exampleReq 5 "t" []).2).1
        = .ok "Lead submitted successfully" "5"
    ∧ ((runSubmits [(exampleReq, 5, "t"), (exampleReq, 5, "t")] []).map (fun l => l.id))
        = ["5", "5"]
    ∧ ¬ ((runSubmits [(exampleReq, 5, "t"), (exampleReq, 5, "t")] []).map
        (fun l => l.id)).Nodup := by
  exact ⟨by decide, by decide, by decide, by decide⟩

/-- One submit-lead step either leaves the stored ids unchanged (a 400) or
appends the decimal rendering of its `Date.now()` value. -/
theorem submitLead_ids_step (req : SubmitRequest) (now : Nat) (nowISO : String)
    (store : List Lead) :
    ((submitLead req now nowISO store).2.map (fun l => l.id)) = store.map (fun l => l.id)
    ∨ ((submitLead req now nowISO store).2.map (fun l => l.id))
        = store.map (fun l => l.id) ++ [Nat.repr now] := by
  unfold submitLead
  split
  · exact Or.inl rfl
  · split
    · exact Or.inl rfl
    · right
      simp [leadData]

/-- The ids stored by a run of submissions form a sublist of the prior ids
followed by the decimal renderings of the submissions' timestamps. -/
theorem runSubmits_ids_sublist (steps : List (SubmitRequest × Nat × String)) :
    ∀ store : List Lead,
      ((runSubmits steps store).map (fun l => l.id)).Sublist
        (store.map (fun l => l.id) ++ steps.map (fun s => Nat.repr s.2.1)) := by
  induction steps with
  | nil =>
    intro store
    simp [runSubmits]
  | cons s rest ih =>
    intro store
    have hrun : runSubmits (s :: rest) store
        = runSubmits rest (submitLead s.1 s.2.1 s.2.2 store).2 := rfl
    rw [hrun]
    have hres := ih (submitLead s.1 s.2.1 s.2.2 store).2
    rcases submitLead_ids_step s.1 s.2.1 s.2.2 store with h | h
    · rw [h] at hres
      refine hres.trans ?_
      rw [List.map_cons]
      exact List.Sublist.append_left (List.sublist_cons_self _ _) _
    · rw [h] at hres
      rw [List.map_cons]
      simpa [List.append_assoc] using hres

/-- C8 (amended): the stored ids are the decimal renderings of the
`Date.now()` values of the successful submissions, so every run whose
submissions carry pairwise distinct millisecond timestamps leaves a store
with pairwise distinct ids.  (Without that proviso the claim fails: two
successful submissions inside the same millisecond store the same id.) -/
theorem runSubmits_distinct_ms_unique_ids (steps : List (SubmitRequest × Nat × String))
    (hdistinct : (steps.map (fun s => s.2.1)).Nodup) :
    ((runSubmits steps []).map (fun l => l.id)).Nodup := by
  have hsub := runSubmits_ids_sublist steps []
  simp only [List.map_nil, List.nil_append] at hsub
  have hids : (steps.map (fun s => Nat.repr s.2.1)).Nodup := by
    have hmm : steps.map (fun s => Nat.repr s.2.1)
        = (steps.map (fun s => s.2.1)).map Nat.repr := by
      simp [List.map_map]
    rw [hmm]
    exact hdistinct.map (fun a b h => repr_inj h)
  exact hids.sublist hsub

theorem runSubmits_distinct_ms_unique_ids_witness :
    ([(exampleReq, 5, "t"), (exampleReq, 6, "t")].map (fun s => s.2.1)).Nodup
    ∧ ((runSubmits [(exampleReq, 5, "t"), (exampleReq, 6, "t")] []).map
        (fun l => l.id)).Nodup :=
  ⟨by decide, runSubmits_distinct_ms_unique_ids _ (by decide)⟩

/-- C9: a valid submission that omits message, requirement and type stores
a lead whose message is the placeholder string, whose requirement is
`General inquiry` and whose type is `contact_form`. -/
theorem submitLead_absent_opt_defaults (req : SubmitRequest) (now : Nat) (nowISO : String)
    (store : List Lead)
    (hn : truthy req.name = true) (hp : truthy req.phone = true)
    (he : truthy req.email = true) (hc : truthy req.company = true)
    (hmail : emailRegexTest (req.email.getD "") = true)
    (hmsg : req.message = none) (hreq : req.requirement = none) (hty : req.type = none) :
    (submitLead req now nowISO store).2 = store ++ [leadData req now nowISO]
    ∧ (leadData req now nowISO).message = "No additional message provided"
    ∧ (leadData req now nowISO).requirement = "General inquiry"
    ∧ (leadData req now nowISO).type = "contact_form" := by
  refine ⟨?_, ?_, ?_, ?_⟩
  · unfold submitLead
    simp [hn, hp, he, hc, hmail]
  · simp [leadData, hmsg, truthy]
  · simp [leadData, hreq, truthy]
  · simp [leadData, hty, truthy]

theorem submitLead_absent_opt_defaults_witness :
    (submitLead exampleReq 5 "t" []).2 = [] ++ [leadData exampleReq 5 "t"]
    ∧ (leadData exampleReq 5 "t").message = "No additional message provided"
    ∧ (leadData exampleReq 5 "t").requirement = "General inquiry"
    ∧ (leadData exampleReq 5 "t").type = "contact_form" :=
  submitLead_absent_opt_defaults exampleReq 5 "t" []
    (by decide) (by decide) (by decide) (by decide) (by decide) rfl rfl rfl

/-- C10: in a valid submission, optional fields that are present but equal
to the empty string receive the same defaults as absent ones (the JS
defaulting condition is falsiness), and a non-empty `type` is stored
exactly as supplied, untrimmed. -/
theorem submitLead_empty_opt_defaults (req : SubmitRequest) (now : Nat) (nowISO : String)
    (store : List Lead)
    (hn : truthy req.name = true) (hp : truthy req.phone = true)
    (he : truthy req.email = true) (hc : truthy req.company = true)
    (hmail : emailRegexTest (req.email.getD "") = true) :
    (submitLead req now nowISO store).2 = store ++ [leadData req now nowISO]
    ∧ (req.message = some "" →
        (leadData req now nowISO).message = "No additional message provided")
    ∧ (req.requirement = some "" →
        (leadData req now nowISO).requirement = "General inquiry")
    ∧ (req.type = some "" → (leadData req now nowISO).type = "contact_form")
    ∧ (∀ t, req.type = some t → t ≠ "" → (leadData req now nowISO).type = t) := by
  refine ⟨?_, ?_, ?_, ?_, ?_⟩
  · unfold submitLead
    simp [hn, hp, he, hc, hmail]
  · intro h
    simp [leadData, h, truthy]
  · intro h
    simp [leadData, h, truthy]
  · intro h
    simp [leadData, h, truthy]
  · intro t h hne
    simp [leadData, h, truthy, hne]

theorem submitLead_empty_opt_defaults_witness :
    (submitLead emptyOptReq 5 "t" []).2 = [] ++ [leadData emptyOptReq 5 "t"]
    ∧ (emptyOptReq.message = some "" →
        (leadData emptyOptReq 5 "t").message = "No additional message provided")
    ∧ (emptyOptReq.requirement = some "" →
        (leadData emptyOptReq 5 "t").requirement = "General inquiry")
    ∧ (emptyOptReq.type = some "" → (leadData emptyOptReq 5 "t").type = "contact_form")
    ∧ (∀ t, emptyOptReq.type = some t → t ≠ "" → (leadData emptyOptReq 5 "t").type = t) :=
  submitLead_empty_opt_defaults emptyOptReq 5 "t" []
    (by decide) (by decide) (by decide) (by decide) (by decide)

end Grm
